import Mathlib

/-
Verification of the pdf-upload-service HTTP handlers and configuration
loader (src/main.py, src/config.py).

The two FastAPI handlers are embedded as pure Lean functions.  The S3
client (boto3) is abstracted as an oracle giving, for each key, the
outcome of head_object, upload_fileobj and delete_object.  Each handler
returns the HTTP outcome together with the ordered trace of storage
calls that it actually issued, so that frame properties (put or delete
never invoked) are provable.
-/

namespace PdfUploadService

/-- Outcome of a single boto3 S3 SDK call, as the Python handlers can
observe it: success, a botocore ClientError carrying an error code
(inspected via e.response x5b Error x5d x5b Code x5d) and a printable
message (str(e)), a botocore NoCredentialsError, or any other exception
carrying its str(e) text. -/
inductive S3Result where
  | ok : S3Result
  | clientError (code : String) (msg : String) : S3Result
  | noCredentials : S3Result
  | otherExn (msg : String) : S3Result
deriving DecidableEq, Repr

/-- Oracle for the S3 backend: the outcome each SDK operation would have
if invoked on a given key during this request. -/
structure S3Oracle where
  head : String → S3Result
  put : String → S3Result
  del : String → S3Result

/-- One storage call issued by a handler, with the arguments the Python
code passes (bucket, key, and for upload_fileobj the ContentType extra
argument and the file bytes). -/
inductive S3Call where
  | headObject (bucket key : String) : S3Call
  | uploadFileobj (bucket key contentType : String) (content : List Nat) : S3Call
  | deleteObject (bucket key : String) : S3Call
deriving DecidableEq, Repr

/-- JSON body of a response produced by JSONResponse in src/main.py:
a status code, a message, and the optional file_url / document_name
fields some branches add. -/
structure JSONResponse where
  status_code : Nat
  message : String
  file_url : Option String
  document_name : Option String
deriving DecidableEq, Repr

/-- What a handler invocation produces: either a JSONResponse, or an
exception that escapes the handler body (an unhandled fault that the
framework, not the handler, must deal with). -/
inductive HandlerOutcome where
  | response (r : JSONResponse) : HandlerOutcome
  | unhandled (exn : String) : HandlerOutcome
deriving DecidableEq, Repr

/-- The multipart upload as the handler sees it: UploadFile.filename,
UploadFile.content_type, and the file bytes. -/
structure UploadFile where
  filename : String
  content_type : String
  file : List Nat
deriving DecidableEq, Repr

/-- ALLOWED_MIME_TYPES from src/main.py lines 23-27: the docx entry is
commented out in the source, so the list holds only application/pdf. -/
def ALLOWED_MIME_TYPES : List String :=
  ["application/pdf"]

/-- upload_pdf from src/main.py lines 41-104.  Embeds the handler body:
MIME-type validation, the key s3_file_key = file.filename, the
head_object existence check (whose ClientError is caught inline, any
code other than 404 giving the fixed 500 message), the upload_fileobj
call, and the outer except clauses (NoCredentialsError gives the fixed
500 message; any other exception gives 500 with str(e) - the log line
there only mentions file.filename, which is always bound). -/
def upload_pdf (bucket : String) (s3 : S3Oracle) (file : UploadFile) :
    HandlerOutcome × List S3Call :=
  if file.content_type ∉ ALLOWED_MIME_TYPES then
    (HandlerOutcome.response
      ⟨400, "Invalid file type. Only PDF files are allowed.", none, none⟩, [])
  else
    let s3_file_key := file.filename
    let trace0 := [S3Call.headObject bucket s3_file_key]
    match s3.head s3_file_key with
    | S3Result.ok =>
        let file_url := "https://" ++ bucket ++ ".s3.amazonaws.com/" ++ s3_file_key
        (HandlerOutcome.response
          ⟨409, "File already exists in the S3 bucket.", some file_url, none⟩, trace0)
    | S3Result.clientError code _ =>
        if code ≠ "404" then
          (HandlerOutcome.response
            ⟨500, "Failed to check if file exists in S3.", none, none⟩, trace0)
        else
          let trace1 := trace0 ++
            [S3Call.uploadFileobj bucket s3_file_key file.content_type file.file]
          match s3.put s3_file_key with
          | S3Result.ok =>
              let file_url := "https://" ++ bucket ++ ".s3.amazonaws.com/" ++ s3_file_key
              (HandlerOutcome.response
                ⟨200, "File uploaded successfully", some file_url, none⟩, trace1)
          | S3Result.noCredentials =>
              (HandlerOutcome.response
                ⟨500, "AWS credentials not available", none, none⟩, trace1)
          | S3Result.clientError _ msg =>
              (HandlerOutcome.response ⟨500, msg, none, none⟩, trace1)
          | S3Result.otherExn msg =>
              (HandlerOutcome.response ⟨500, msg, none, none⟩, trace1)
    | S3Result.noCredentials =>
        (HandlerOutcome.response
          ⟨500, "AWS credentials not available", none, none⟩, trace0)
    | S3Result.otherExn msg =>
        (HandlerOutcome.response ⟨500, msg, none, none⟩, trace0)

/-- Body of a DELETE /api/delete request as the handler observes it.
parseError: await request.json() raised (invalid JSON), carrying str(e).
obj: the body parsed to a dict; the field holds the result of
body.get on the document_name key, where both an absent key and a JSON
null value yield Python None, embedded as none. -/
inductive DeleteBody where
  | parseError (msg : String) : DeleteBody
  | obj (document_name : Option String) : DeleteBody
deriving DecidableEq, Repr

/-- Python truthiness test applied by the guard at src/main.py line 112
(if not document_name): None and the empty string are falsy. -/
def pyFalsy : Option String → Bool
  | none => true
  | some s => s == ""

/-- The except-Exception catch-all of delete_pdf, src/main.py lines
153-158.  Before returning the 500 envelope it evaluates the log
f-string mentioning the local variable document_name; on the code path
where the body parse itself raised, that local was never assigned, so
the f-string raises UnboundLocalError, which escapes the handler
instead of the intended JSONResponse. -/
def deleteCatchAll (document_name : Option String) (e : String) : HandlerOutcome :=
  match document_name with
  | none =>
      HandlerOutcome.unhandled
        "UnboundLocalError: local variable document_name referenced before assignment"
  | some _ => HandlerOutcome.response ⟨500, e, none, none⟩

/-- delete_pdf from src/main.py lines 106-158.  Embeds the handler body:
JSON body parse, the falsy guard on document_name, the head_object
existence check (ClientError code 404 giving the fixed 404 message, any
other code the fixed 500 message), the delete_object call, the outer
NoCredentialsError clause, and the except-Exception catch-all (which is
also where the parse failure of an invalid JSON body lands, with the
local document_name still unbound). -/
def delete_pdf (bucket : String) (s3 : S3Oracle) (body : DeleteBody) :
    HandlerOutcome × List S3Call :=
  match body with
  | DeleteBody.parseError msg => (deleteCatchAll none msg, [])
  | DeleteBody.obj dn =>
      if pyFalsy dn then
        (HandlerOutcome.response
          ⟨400, "document_name is required in the request body.", none, none⟩, [])
      else
        let document_name := dn.getD ""
        let trace0 := [S3Call.headObject bucket document_name]
        match s3.head document_name with
        | S3Result.clientError code _ =>
            if code = "404" then
              (HandlerOutcome.response
                ⟨404, "File not found in S3.", none, none⟩, trace0)
            else
              (HandlerOutcome.response
                ⟨500, "Failed to check file in S3.", none, none⟩, trace0)
        | S3Result.noCredentials =>
            (HandlerOutcome.response
              ⟨500, "AWS credentials not available", none, none⟩, trace0)
        | S3Result.otherExn msg => (deleteCatchAll (some document_name) msg, trace0)
        | S3Result.ok =>
            let trace1 := trace0 ++ [S3Call.deleteObject bucket document_name]
            match s3.del document_name with
            | S3Result.ok =>
                (HandlerOutcome.response
                  ⟨200, "File deleted successfully", none, some document_name⟩, trace1)
            | S3Result.noCredentials =>
                (HandlerOutcome.response
                  ⟨500, "AWS credentials not available", none, none⟩, trace1)
            | S3Result.clientError _ msg =>
                (deleteCatchAll (some document_name) msg, trace1)
            | S3Result.otherExn msg => (deleteCatchAll (some document_name) msg, trace1)

/-- Settings from src/config.py lines 5-16: four required str-typed
fields read case-insensitively from the environment (or a .env file),
unrecognized keys ignored.  A pydantic str field accepts any string,
the empty string included; no non-emptiness constraint appears in the
source. -/
structure Settings where
  db_url : String
  bucket_name : String
  aws_access_key : String
  aws_secret_key : String
deriving DecidableEq, Repr

/-- Lowercased character list of a string, used for the
case-insensitive key comparison. -/
def lowerKey (s : String) : List Char :=
  s.data.map Char.toLower

/-- Case-insensitive lookup of a settings key in the environment;
models the case_sensitive=False setting of SettingsConfigDict. -/
def lookupSetting (env : List (String × String)) (key : String) : Option String :=
  (env.find? (fun p => lowerKey p.fst == lowerKey key)).map Prod.snd

/-- load_settings from src/config.py lines 21-25: Settings() succeeds
exactly when all four required fields are present (any present string
is a valid str, so pydantic raises ValidationError only for missing
fields), and the ValidationError is converted by load_settings into a
process exit carrying a diagnostic, embedded as Except.error. -/
def load_settings (env : List (String × String)) : Except String Settings :=
  match lookupSetting env "db_url", lookupSetting env "bucket_name",
        lookupSetting env "aws_access_key", lookupSetting env "aws_secret_key" with
  | some d, some b, some a, some s => Except.ok ⟨d, b, a, s⟩
  | _, _, _, _ => Except.error "validation error: field required"

/-- C1: for every upload request with an allowed MIME type whose key the
head_object existence check reports as present, upload_pdf returns
status 409 with the message about the file already existing and the
file URL, and the only storage call issued is the existence check, so
upload_fileobj is never invoked and the stored object is not
overwritten. -/
theorem upload_existing_key_409 (bucket : String) (s3 : S3Oracle) (file : UploadFile)
    (hmime : file.content_type ∈ ALLOWED_MIME_TYPES)
    (hhead : s3.head file.filename = S3Result.ok) :
    upload_pdf bucket s3 file =
      (HandlerOutcome.response
        ⟨409, "File already exists in the S3 bucket.",
         some ("https://" ++ bucket ++ ".s3.amazonaws.com/" ++ file.filename), none⟩,
       [S3Call.headObject bucket file.filename]) := by
  simp [upload_pdf, hmime, hhead]

/-- Witness for upload_existing_key_409 at a concrete request. -/
theorem upload_existing_key_409_witness :
    upload_pdf "bkt"
        ⟨fun _ => S3Result.ok, fun _ => S3Result.ok, fun _ => S3Result.ok⟩
        ⟨"report.pdf", "application/pdf", [37, 80, 68, 70]⟩ =
      (HandlerOutcome.response
        ⟨409, "File already exists in the S3 bucket.",
         some "https://bkt.s3.amazonaws.com/report.pdf", none⟩,
       [S3Call.headObject "bkt" "report.pdf"]) :=
  upload_existing_key_409 "bkt" _ _ (by decide) rfl

/-- C2: for every upload request with an allowed MIME type whose key the
existence check reports as not found (ClientError with code 404), the
handler proceeds to upload_fileobj; when that put succeeds the response
is status 200 with the success message and a file URL built exactly
from the bucket and the key, the key being the uploaded filename with
no tenant name prepended. -/
theorem upload_new_key_200 (bucket : String) (s3 : S3Oracle) (file : UploadFile)
    (m : String)
    (hmime : file.content_type ∈ ALLOWED_MIME_TYPES)
    (hhead : s3.head file.filename = S3Result.clientError "404" m)
    (hput : s3.put file.filename = S3Result.ok) :
    upload_pdf bucket s3 file =
      (HandlerOutcome.response
        ⟨200, "File uploaded successfully",
         some ("https://" ++ bucket ++ ".s3.amazonaws.com/" ++ file.filename), none⟩,
       [S3Call.headObject bucket file.filename,
        S3Call.uploadFileobj bucket file.filename file.content_type file.file]) := by
  simp [upload_pdf, hmime, hhead, hput]

/-- Witness for upload_new_key_200 at a concrete request. -/
theorem upload_new_key_200_witness :
    upload_pdf "bkt"
        ⟨fun _ => S3Result.clientError "404" "not found", fun _ => S3Result.ok,
         fun _ => S3Result.ok⟩
        ⟨"report.pdf", "application/pdf", [37, 80, 68, 70]⟩ =
      (HandlerOutcome.response
        ⟨200, "File uploaded successfully",
         some "https://bkt.s3.amazonaws.com/report.pdf", none⟩,
       [S3Call.headObject "bkt" "report.pdf",
        S3Call.uploadFileobj "bkt" "report.pdf" "application/pdf" [37, 80, 68, 70]]) :=
  upload_new_key_200 "bkt" _ _ "not found" (by decide) rfl rfl

/-- C4: the allow-list holds exactly application/pdf, and for every
upload request whose content type is not in it, upload_pdf returns
status 400 with the invalid-file-type message and issues no storage
call at all, so neither the existence check nor the put happens and the
object store is unchanged. -/
theorem upload_bad_mime_400 (bucket : String) (s3 : S3Oracle) (file : UploadFile)
    (hmime : file.content_type ∉ ALLOWED_MIME_TYPES) :
    ALLOWED_MIME_TYPES = ["application/pdf"] ∧
    upload_pdf bucket s3 file =
      (HandlerOutcome.response
        ⟨400, "Invalid file type. Only PDF files are allowed.", none, none⟩, []) := by
  refine ⟨rfl, ?_⟩
  simp [upload_pdf, hmime]

/-- Witness for upload_bad_mime_400 at a concrete request. -/
theorem upload_bad_mime_400_witness :
    ALLOWED_MIME_TYPES = ["application/pdf"] ∧
    upload_pdf "bkt"
        ⟨fun _ => S3Result.ok, fun _ => S3Result.ok, fun _ => S3Result.ok⟩
        ⟨"notes.txt", "text/plain", [104, 105]⟩ =
      (HandlerOutcome.response
        ⟨400, "Invalid file type. Only PDF files are allowed.", none, none⟩, []) :=
  upload_bad_mime_400 "bkt" _ _ (by decide)

/-- C5: for every upload request with an allowed MIME type where the
existence check fails with a ClientError whose code is not 404, the
handler returns status 500 with the fixed failed-to-check message and
never reaches upload_fileobj (the trace is just the head call); and a
404 from the check is never swallowed into that branch: with code 404
the handler proceeds to the upload_fileobj call. -/
theorem upload_head_error_500 (bucket : String) (s3 : S3Oracle) (file : UploadFile)
    (hmime : file.content_type ∈ ALLOWED_MIME_TYPES) :
    (∀ code m, s3.head file.filename = S3Result.clientError code m → code ≠ "404" →
      upload_pdf bucket s3 file =
        (HandlerOutcome.response
          ⟨500, "Failed to check if file exists in S3.", none, none⟩,
         [S3Call.headObject bucket file.filename])) ∧
    (∀ m, s3.head file.filename = S3Result.clientError "404" m →
      S3Call.uploadFileobj bucket file.filename file.content_type file.file ∈
        (upload_pdf bucket s3 file).2) := by
  constructor
  · intro code m hhead hcode
    simp [upload_pdf, hmime, hhead, hcode]
  · intro m hhead
    cases hput : s3.put file.filename <;>
      simp [upload_pdf, hmime, hhead, hput]

/-- Witness for upload_head_error_500 at a concrete request, exercising
both conjuncts (a 403 from the check gives the fixed 500, a 404 leads
to the put call). -/
theorem upload_head_error_500_witness :
    (upload_pdf "bkt"
        ⟨fun _ => S3Result.clientError "403" "forbidden", fun _ => S3Result.ok,
         fun _ => S3Result.ok⟩
        ⟨"report.pdf", "application/pdf", []⟩ =
      (HandlerOutcome.response
        ⟨500, "Failed to check if file exists in S3.", none, none⟩,
       [S3Call.headObject "bkt" "report.pdf"])) ∧
    (S3Call.uploadFileobj "bkt" "report.pdf" "application/pdf" [] ∈
      (upload_pdf "bkt"
        ⟨fun _ => S3Result.clientError "404" "absent", fun _ => S3Result.ok,
         fun _ => S3Result.ok⟩
        ⟨"report.pdf", "application/pdf", []⟩).2) :=
  ⟨(upload_head_error_500 "bkt" _ _ (by decide)).1 "403" "forbidden" rfl (by decide),
   (upload_head_error_500 "bkt" _ _ (by decide)).2 "absent" rfl⟩

/-- C6: for every delete request whose (non-falsy) document_name the
existence check reports as not found (ClientError with code 404),
delete_pdf returns status 404 with the file-not-found message and the
trace holds only the head call, so delete_object is never invoked; in
particular a second delete of an already-deleted key, where head now
reports 404, yields this 404 rather than a silent success. -/
theorem delete_notfound_404 (bucket : String) (s3 : S3Oracle) (dn m : String)
    (hne : dn ≠ "")
    (hhead : s3.head dn = S3Result.clientError "404" m) :
    delete_pdf bucket s3 (DeleteBody.obj (some dn)) =
      (HandlerOutcome.response ⟨404, "File not found in S3.", none, none⟩,
       [S3Call.headObject bucket dn]) := by
  have hfalsy : pyFalsy (some dn) = false := by
    simp [pyFalsy, hne]
  simp [delete_pdf, hfalsy, hhead]

/-- Witness for delete_notfound_404 at a concrete request. -/
theorem delete_notfound_404_witness :
    delete_pdf "bkt"
        ⟨fun _ => S3Result.clientError "404" "missing", fun _ => S3Result.ok,
         fun _ => S3Result.ok⟩
        (DeleteBody.obj (some "report.pdf")) =
      (HandlerOutcome.response ⟨404, "File not found in S3.", none, none⟩,
       [S3Call.headObject "bkt" "report.pdf"]) :=
  delete_notfound_404 "bkt" _ "report.pdf" "missing" (by decide) rfl

/-- C7: for every delete request whose JSON body lacks the document_name
field (body.get yields None), delete_pdf returns status 400 with the
required-field message and issues no storage call, so neither the
existence check nor delete_object runs and the object store is
unchanged. -/
theorem delete_missing_name_400 (bucket : String) (s3 : S3Oracle) :
    delete_pdf bucket s3 (DeleteBody.obj none) =
      (HandlerOutcome.response
        ⟨400, "document_name is required in the request body.", none, none⟩, []) := by
  simp [delete_pdf, pyFalsy]

/-- C9: for every delete request whose document_name field is falsy
without being absent - bound to the empty string, or to JSON null
(which body.get returns as None exactly like an absent field) - the
handler behaves as for an absent field: status 400 with the
required-field message and no storage call. -/
theorem delete_falsy_name_400 (bucket : String) (s3 : S3Oracle) (dn : Option String)
    (hfalsy : dn = none ∨ dn = some "") :
    delete_pdf bucket s3 (DeleteBody.obj dn) =
      (HandlerOutcome.response
        ⟨400, "document_name is required in the request body.", none, none⟩, []) := by
  rcases hfalsy with h | h <;> subst h <;> simp [delete_pdf, pyFalsy]

/-- Witness for delete_falsy_name_400 at the empty-string input. -/
theorem delete_falsy_name_400_witness :
    delete_pdf "bkt"
        ⟨fun _ => S3Result.ok, fun _ => S3Result.ok, fun _ => S3Result.ok⟩
        (DeleteBody.obj (some "")) =
      (HandlerOutcome.response
        ⟨400, "document_name is required in the request body.", none, none⟩, []) :=
  delete_falsy_name_400 "bkt" _ (some "") (Or.inr rfl)

/-- C10 (code evaluated at the failing input): for every delete request
whose body is not valid JSON, the parse failure reaches the
except-Exception catch-all with the local document_name still unbound,
so the log f-string raises UnboundLocalError and the handler ends in an
unhandled fault instead of the 500 JSON envelope; no storage call is
made. -/
theorem delete_invalid_json_unhandled (bucket : String) (s3 : S3Oracle) (m : String) :
    delete_pdf bucket s3 (DeleteBody.parseError m) =
      (HandlerOutcome.unhandled
        "UnboundLocalError: local variable document_name referenced before assignment",
       []) := by
  simp [delete_pdf, deleteCatchAll]

/-- C8: whenever the storage client raises NoCredentialsError during an
upload or a delete - at the upload existence check, at the put, at the
delete existence check, or at the delete_object call - the handler
returns status 500 with exactly the fixed message about AWS credentials
not being available. -/
theorem credentials_error_500 (bucket : String) (s3 : S3Oracle) :
    (∀ file : UploadFile, file.content_type ∈ ALLOWED_MIME_TYPES →
      s3.head file.filename = S3Result.noCredentials →
      (upload_pdf bucket s3 file).1 =
        HandlerOutcome.response ⟨500, "AWS credentials not available", none, none⟩) ∧
    (∀ file : UploadFile, ∀ m, file.content_type ∈ ALLOWED_MIME_TYPES →
      s3.head file.filename = S3Result.clientError "404" m →
      s3.put file.filename = S3Result.noCredentials →
      (upload_pdf bucket s3 file).1 =
        HandlerOutcome.response ⟨500, "AWS credentials not available", none, none⟩) ∧
    (∀ dn : String, dn ≠ "" →
      s3.head dn = S3Result.noCredentials →
      (delete_pdf bucket s3 (DeleteBody.obj (some dn))).1 =
        HandlerOutcome.response ⟨500, "AWS credentials not available", none, none⟩) ∧
    (∀ dn : String, dn ≠ "" →
      s3.head dn = S3Result.ok →
      s3.del dn = S3Result.noCredentials →
      (delete_pdf bucket s3 (DeleteBody.obj (some dn))).1 =
        HandlerOutcome.response ⟨500, "AWS credentials not available", none, none⟩) := by
  refine ⟨?_, ?_, ?_, ?_⟩
  · intro file hmime hhead
    simp [upload_pdf, hmime, hhead]
  · intro file m hmime hhead hput
    simp [upload_pdf, hmime, hhead, hput]
  · intro dn hne hhead
    have hfalsy : pyFalsy (some dn) = false := by
      simp [pyFalsy, hne]
    simp [delete_pdf, hfalsy, hhead]
  · intro dn hne hhead hdel
    have hfalsy : pyFalsy (some dn) = false := by
      simp [pyFalsy, hne]
    simp [delete_pdf, hfalsy, hhead, hdel]

/-- Witness for credentials_error_500, exercising all four call sites on
concrete requests against an oracle that reports missing credentials at
the relevant operation. -/
theorem credentials_error_500_witness :
    ((upload_pdf "bkt"
        ⟨fun _ => S3Result.noCredentials, fun _ => S3Result.ok, fun _ => S3Result.ok⟩
        ⟨"a.pdf", "application/pdf", []⟩).1 =
      HandlerOutcome.response ⟨500, "AWS credentials not available", none, none⟩) ∧
    ((upload_pdf "bkt"
        ⟨fun _ => S3Result.clientError "404" "m", fun _ => S3Result.noCredentials,
         fun _ => S3Result.ok⟩
        ⟨"a.pdf", "application/pdf", []⟩).1 =
      HandlerOutcome.response ⟨500, "AWS credentials not available", none, none⟩) ∧
    ((delete_pdf "bkt"
        ⟨fun _ => S3Result.noCredentials, fun _ => S3Result.ok, fun _ => S3Result.ok⟩
        (DeleteBody.obj (some "a.pdf"))).1 =
      HandlerOutcome.response ⟨500, "AWS credentials not available", none, none⟩) ∧
    ((delete_pdf "bkt"
        ⟨fun _ => S3Result.ok, fun _ => S3Result.ok, fun _ => S3Result.noCredentials⟩
        (DeleteBody.obj (some "a.pdf"))).1 =
      HandlerOutcome.response ⟨500, "AWS credentials not available", none, none⟩) :=
  ⟨(credentials_error_500 "bkt" _).1 ⟨"a.pdf", "application/pdf", []⟩ (by decide) rfl,
   (credentials_error_500 "bkt" _).2.1 ⟨"a.pdf", "application/pdf", []⟩ "m" (by decide)
     rfl rfl,
   (credentials_error_500 "bkt" _).2.2.1 "a.pdf" (by decide) rfl,
   (credentials_error_500 "bkt" _).2.2.2 "a.pdf" (by decide) rfl rfl⟩

/-- Environment in which every required settings key is present but
DB_URL carries the empty string; pydantic str fields accept it. -/
def envEmptyDbUrl : List (String × String) :=
  [("DB_URL", ""), ("BUCKET_NAME", "b"), ("AWS_ACCESS_KEY", "k"), ("AWS_SECRET_KEY", "s")]

/-- C3 counterexample: with every key present but DB_URL set to the
empty string, load_settings succeeds and returns a Settings whose
db_url is empty, so it is not true that on success every one of the
four fields is a non-empty string - a str-typed pydantic field carries
no non-emptiness validation. -/
theorem load_settings_accepts_empty_string :
    load_settings envEmptyDbUrl = Except.ok ⟨"", "b", "k", "s"⟩ ∧
    ¬ (Settings.db_url ⟨"", "b", "k", "s"⟩ ≠ "") :=
  ⟨rfl, fun h => h rfl⟩

/-- C3 amended: configuration loading fails, with a diagnostic, exactly
when one of the four required settings keys is absent from the
(case-insensitively read) environment, and on success each field of the
returned Settings equals the environment value for its key - a string
that may be empty, since the str-typed fields validate any present
string. -/
theorem load_settings_ok_iff (env : List (String × String)) :
    ((∃ s, load_settings env = Except.ok s) ↔
      ((lookupSetting env "db_url").isSome ∧
       (lookupSetting env "bucket_name").isSome ∧
       (lookupSetting env "aws_access_key").isSome ∧
       (lookupSetting env "aws_secret_key").isSome)) ∧
    (∀ s, load_settings env = Except.ok s →
      lookupSetting env "db_url" = some s.db_url ∧
      lookupSetting env "bucket_name" = some s.bucket_name ∧
      lookupSetting env "aws_access_key" = some s.aws_access_key ∧
      lookupSetting env "aws_secret_key" = some s.aws_secret_key) := by
  unfold load_settings
  cases h1 : lookupSetting env "db_url" <;>
    cases h2 : lookupSetting env "bucket_name" <;>
      cases h3 : lookupSetting env "aws_access_key" <;>
        cases h4 : lookupSetting env "aws_secret_key" <;>
          simp_all

/-- Witness for load_settings_ok_iff at the concrete environment with
an empty DB_URL: loading succeeds and every field equals its
environment value. -/
theorem load_settings_ok_iff_witness :
    lookupSetting envEmptyDbUrl "db_url" = some "" ∧
    lookupSetting envEmptyDbUrl "bucket_name" = some "b" ∧
    lookupSetting envEmptyDbUrl "aws_access_key" = some "k" ∧
    lookupSetting envEmptyDbUrl "aws_secret_key" = some "s" :=
  (load_settings_ok_iff envEmptyDbUrl).2 ⟨"", "b", "k", "s"⟩ rfl

end PdfUploadService
